import Mathlib

/-!
Verification development for the coordinate-parsing and weather-derivation
pipeline of a Telegram weather bot (files `coord_parser.py`, `weather.py`,
`main.py`).  Python floats are modelled as exact rationals (`ℚ`); Python
`None` as `Option.none`; a raised exception of a fallible function as an
`Option.none` result.  The regular expressions of `coord_parser.py` are
embedded as explicit character scanners that follow the leftmost-match,
greedy semantics of the `re` module for the concrete patterns involved
(every sub-pattern after the mandatory degree digits is optional, so the
greedy match never needs to backtrack, and the scanners below are the
direct deterministic reading of each pattern).
-/

set_option maxRecDepth 2000

namespace WeatherBot

/-- Lowercase map covering the ASCII and Cyrillic letters appearing in the
patterns of `coord_parser.py` (all its regexes carry `re.IGNORECASE`). -/
def toLowerChar (c : Char) : Char :=
  let n := c.toNat
  if 65 ≤ n ∧ n ≤ 90 then Char.ofNat (n + 32)
  else if 1040 ≤ n ∧ n ≤ 1071 then Char.ofNat (n + 32)
  else if n = 1025 then Char.ofNat 1105
  else c

/-- Python regex `\s` (whitespace) for the character set reachable here. -/
def isSpaceChar (c : Char) : Bool :=
  c.toNat = 32 || c.toNat = 9 || c.toNat = 10 || c.toNat = 11 ||
  c.toNat = 12 || c.toNat = 13 || c.toNat = 160

/-- Split a character list at every separator character, keeping empty
pieces, exactly as `re.split` with a single-character class does. -/
def splitChars (p : Char → Bool) : List Char → List (List Char)
  | [] => [[]]
  | c :: rest =>
    if p c then [] :: splitChars p rest
    else
      match splitChars p rest with
      | r :: rs => (c :: r) :: rs
      | [] => [[c]]

/-- Python `str.strip()` over the whitespace set used here. -/
def charTrim (l : List Char) : List Char :=
  ((l.dropWhile isSpaceChar).reverse.dropWhile isSpaceChar).reverse

def strTrim (s : String) : String := String.mk (charTrim s.data)

/-- Take at most `n` leading ASCII digits, returning them and the rest. -/
def takeDigitsUpTo : Nat → List Char → List Char × List Char
  | 0, s => ([], s)
  | _ + 1, [] => ([], [])
  | n + 1, c :: rest =>
    if c.isDigit then
      let (d, r) := takeDigitsUpTo n rest
      (c :: d, r)
    else ([], c :: rest)

/-- Numeric value of a list of ASCII digits. -/
def natOfDigits (ds : List Char) : Nat :=
  ds.foldl (fun acc c => 10 * acc + (c.toNat - 48)) 0

/-- Drop one leading character when it satisfies `p` (an optional
single-character regex item such as `[°º]?`). -/
def dropOne (p : Char → Bool) (s : List Char) : List Char :=
  match s with
  | c :: rest => if p c then rest else c :: rest
  | [] => []

def isDegGlyph (c : Char) : Bool := c.toNat = 176 || c.toNat = 186

def isMinuteMark (c : Char) : Bool :=
  c.toNat = 39 || c.toNat = 8217 || c.toNat = 8242

/-- Raw result of one match of `_DEG_MIN_SEC_RE`
(`[-+]?\d{1,3}\s*[°º]?\s*(\d{1,2})?\s*['’′]?\s*(\d{1,2}(\.\d+)?)?\s*"?`):
the signed degree value, the minute digits value (0 when the group is
absent), the integer and fractional second digits, and the text after the
match end (the Python code keeps `fragment[m.end():]`). -/
structure DmsRaw where
  deg : ℤ
  minN : Nat
  secInt : Nat
  secFracNum : Nat
  secFracLen : Nat
  tail : String
deriving DecidableEq

/-- Attempt the degree-minute-second pattern at the head of `s`.  Mirrors
the Python regex item by item; each quantifier is greedy and everything
after the degree digits is optional, so no backtracking can occur (the
only backtracking point, a sign without a following digit, fails the whole
position either way). -/
def matchDmsAt (s : List Char) : Option DmsRaw :=
  let (neg, s1) :=
    match s with
    | c :: rest =>
      if c.toNat = 45 then (true, rest)
      else if c.toNat = 43 then (false, rest)
      else (false, s)
    | [] => (false, [])
  match takeDigitsUpTo 3 s1 with
  | ([], _) => none
  | (dg, s2) =>
    let s3 := s2.dropWhile isSpaceChar
    let s4 := dropOne isDegGlyph s3
    let s5 := s4.dropWhile isSpaceChar
    let (mn, s6) := takeDigitsUpTo 2 s5
    let s7 := s6.dropWhile isSpaceChar
    let s8 := dropOne isMinuteMark s7
    let s9 := s8.dropWhile isSpaceChar
    let (sd, s10) := takeDigitsUpTo 2 s9
    let (sf, s11) :=
      match sd, s10 with
      | _ :: _, dot :: rest =>
        if dot.toNat = 46 then
          match rest.span Char.isDigit with
          | ([], _) => (([] : List Char), s10)
          | (fr, r) => (fr, r)
        else ([], s10)
      | _, _ => ([], s10)
    let s12 := s11.dropWhile isSpaceChar
    let s13 := dropOne (fun c => c.toNat = 34) s12
    some { deg := if neg then -(natOfDigits dg : ℤ) else (natOfDigits dg : ℤ),
           minN := natOfDigits mn,
           secInt := natOfDigits sd,
           secFracNum := natOfDigits sf,
           secFracLen := sf.length,
           tail := String.mk s13 }

/-- `re.search` for `_DEG_MIN_SEC_RE`: leftmost position whose match
attempt succeeds. -/
def dmsSearch : List Char → Option DmsRaw
  | [] => none
  | c :: rest =>
    match matchDmsAt (c :: rest) with
    | some m => some m
    | none => dmsSearch rest

/-- `re.findall` for `_DEG_MIN_SEC_RE`: repeated leftmost search, resuming
after each (always non-empty) match.  The fuel argument is bounded by the
input length because every match consumes at least one character. -/
def dmsFindAllAux : Nat → List Char → List DmsRaw
  | 0, _ => []
  | fuel + 1, s =>
    match dmsSearch s with
    | none => []
    | some m => m :: dmsFindAllAux fuel m.tail.data

def dmsFindAll (s : List Char) : List DmsRaw :=
  dmsFindAllAux (s.length + 1) s

/-- Embeds `_extract_dms`: search the fragment with the DMS pattern and
keep the numeric groups plus the text after the match.  The Python
function converts the groups with `float` immediately; here the raw
groups are kept and the rational conversion happens at the use site in
`parse_coordinates`, with the identical values. -/
def extract_dms (fragment : String) : Option DmsRaw :=
  dmsSearch fragment.data

/-- Character class `[NSСЮ]` of `_LAT_DIR_RE` under `IGNORECASE`. -/
def latDirClass (c : Char) : Bool :=
  let l := toLowerChar c
  l = 'n' || l = 's' || l = 'с' || l = 'ю'

/-- Character class `[EWВЗ]` of `_LON_DIR_RE` under `IGNORECASE`. -/
def lonDirClass (c : Char) : Bool :=
  let l := toLowerChar c
  l = 'e' || l = 'w' || l = 'в' || l = 'з'

/-- `re.search` of `_LAT_DIR_RE` = `([NSСЮ]|с\.?\s*ш\.|ю\.?\s*ш\.)`.
Both phrase alternatives begin with a letter already matched by the
leading single-character class, and the class alternative is tried first
at every position, so the leftmost match is always a single class
character; the scanner returns that character as the whole group. -/
def latDirSearch : List Char → Option (List Char)
  | [] => none
  | c :: rest => if latDirClass c then some [c] else latDirSearch rest

/-- `re.search` of `_LON_DIR_RE` = `([EWВЗ]|в\.?\s*д\.|з\.?\s*д\.)`,
with the same remark as for `latDirSearch`. -/
def lonDirSearch : List Char → Option (List Char)
  | [] => none
  | c :: rest => if lonDirClass c then some [c] else lonDirSearch rest

/-- Embeds `_direction_sign`: sign (+1/−1) from the direction letters in
the text trailing the numeric match.  An absent or empty trailing text is
falsy in Python and yields +1. -/
def direction_sign (text_after : Option String) (is_lat : Bool) : ℤ :=
  match text_after with
  | none => 1
  | some t =>
    if t.data = [] then 1
    else if is_lat then
      match latDirSearch t.data with
      | some g =>
        let d := g.map toLowerChar
        if d.headD ' ' = 's' || d.contains 'ю' then -1 else 1
      | none => 1
    else
      match lonDirSearch t.data with
      | some g =>
        let d := g.map toLowerChar
        if d.headD ' ' = 'w' || d.contains 'з' then -1 else 1
      | none => 1

/-- Embeds `dms_to_decimal`. -/
def dms_to_decimal (deg minute sec : ℚ) (sign : ℤ) : ℚ :=
  (sign : ℚ) * (|deg| + minute / 60 + sec / 3600)

/-- Substring test (Python `re.search` of a literal alternation reduces to
substring containment). -/
def containsSub (hay needle : List Char) : Bool :=
  if needle.isPrefixOf hay then true
  else
    match hay with
    | [] => false
    | _ :: t => containsSub t needle

def lowerData (s : String) : List Char := s.data.map toLowerChar

/-- `re.search(r"широт|lat", pt, IGNORECASE)` as a Boolean. -/
def keywordLat (pt : String) : Bool :=
  containsSub (lowerData pt) "широт".data || containsSub (lowerData pt) "lat".data

/-- `re.search(r"долгот|lon|lng", pt, IGNORECASE)` as a Boolean. -/
def keywordLon (pt : String) : Bool :=
  containsSub (lowerData pt) "долгот".data ||
  containsSub (lowerData pt) "lon".data ||
  containsSub (lowerData pt) "lng".data

/-- The labelling loop of `parse_coordinates`: for each part, an
`if/elif` stores the part as the latitude or longitude fragment, a later
labelled part overwriting an earlier one. -/
def labelScan (parts : List String) : Option String × Option String :=
  parts.foldl
    (fun acc pt =>
      if keywordLat pt then (some pt, acc.2)
      else if keywordLon pt then (acc.1, some pt)
      else acc)
    (none, none)

/-- Python `frag or text`: `None` and the empty string are falsy. -/
def fragOr (o : Option String) (t : String) : String :=
  match o with
  | some s => if s = "" then t else s
  | none => t

/-- Case-insensitive literal prefix, returning the remainder on success. -/
def dropPrefixCI : List Char → List Char → Option (List Char)
  | s, [] => some s
  | [], _ :: _ => none
  | c :: s, p :: ps =>
    if toLowerChar c = toLowerChar p then dropPrefixCI s ps else none

/-- Raw numeric group `[+-]?\d+(\.\d+)?`: sign flag, integer digits value,
fraction digits value and count. -/
structure NumRaw where
  neg : Bool
  intPart : Nat
  fracNum : Nat
  fracLen : Nat
deriving DecidableEq

/-- Match `[+-]?\d+(\.\d+)?` at the head of `s` (a sign not followed by a
digit fails the position, exactly as the regex does after backtracking
over the optional sign). -/
def parseNumAt (s : List Char) : Option NumRaw :=
  let (neg, s1) :=
    match s with
    | c :: rest =>
      if c.toNat = 45 then (true, rest)
      else if c.toNat = 43 then (false, rest)
      else (false, s)
    | [] => (false, [])
  match s1.span Char.isDigit with
  | ([], _) => none
  | (ds, s2) =>
    let (fs, _) :=
      match s2 with
      | dot :: rest =>
        if dot.toNat = 46 then
          match rest.span Char.isDigit with
          | ([], _) => (([] : List Char), s2)
          | (fr, r) => (fr, r)
        else ([], s2)
      | [] => ([], ([] : List Char))
    some { neg := neg, intPart := natOfDigits ds,
           fracNum := natOfDigits fs, fracLen := fs.length }

/-- One attempt of `_ALT_RE` = `Высот[ае]:?\s*([+-]?\d+(\.\d+)?)\s*(m|м)?`
at the head of `s` (the trailing unit only extends the match and is
irrelevant to the captured group). -/
def altMatchAt (s : List Char) : Option NumRaw :=
  match dropPrefixCI s "высот".data with
  | none => none
  | some r1 =>
    match r1 with
    | c :: r2 =>
      let l := toLowerChar c
      if l = 'а' ∨ l = 'е' then
        let r3 := dropOne (fun ch => ch.toNat = 58) r2
        let r4 := r3.dropWhile isSpaceChar
        parseNumAt r4
      else none
    | [] => none

/-- `re.search` of `_ALT_RE` over the whole text. -/
def altSearch : List Char → Option NumRaw
  | [] => none
  | c :: rest =>
    match altMatchAt (c :: rest) with
    | some v => some v
    | none => altSearch rest

/-- One attempt of `_TZ_RE` = `Часов[ао]й\s+пояс\s*:\s*([^\n]+)` at the
head of `s`. -/
def tzMatchAt (s : List Char) : Option String :=
  match dropPrefixCI s "часов".data with
  | none => none
  | some r1 =>
    match r1 with
    | c1 :: r2 =>
      if toLowerChar c1 = 'а' ∨ toLowerChar c1 = 'о' then
        match r2 with
        | c2 :: r3 =>
          if toLowerChar c2 = 'й' then
            match r3.span isSpaceChar with
            | ([], _) => none
            | (_ :: _, r4) =>
              match dropPrefixCI r4 "пояс".data with
              | none => none
              | some r5 =>
                let r6 := r5.dropWhile isSpaceChar
                match r6 with
                | colon :: r7 =>
                  if colon.toNat = 58 then
                    let r8 := r7.dropWhile isSpaceChar
                    match r8.takeWhile (fun ch => ch.toNat ≠ 10) with
                    | [] => none
                    | g => some (String.mk g)
                  else none
                | [] => none
          else none
        | [] => none
      else none
    | [] => none

/-- `re.search` of `_TZ_RE`; the Python caller then applies `.strip()` to
the captured group. -/
def tzSearch : List Char → Option String
  | [] => none
  | c :: rest =>
    match tzMatchAt (c :: rest) with
    | some g => some (strTrim g)
    | none => tzSearch rest

/-- Syntactic part of `parse_coordinates` (`coord_parser.py`, lines
57–113): splitting, labelling, the two-fragment fallback, the DMS
extraction for both axes, plus the independent altitude and timezone
searches.  A `none` result is the `ValueError` branch.  The numeric
conversion to decimal degrees is applied on top by `parse_coordinates`. -/
def parse_raw (text : String) :
    Option (DmsRaw × DmsRaw × Option NumRaw × Option String) :=
  let parts :=
    (splitChars (fun c => c == '\n' || c == '/' || c == '|') text.data).map
      (fun l => String.mk (charTrim l))
  let frags := labelScan parts
  let fallback :=
    (frags.1.isNone || frags.2.isNone) &&
      decide (2 ≤ (dmsFindAll text.data).length)
  let latFrag := if fallback then some text else frags.1
  let lonFrag := if fallback then some text else frags.2
  match extract_dms (fragOr latFrag text), extract_dms (fragOr lonFrag text) with
  | some lt, some ln => some (lt, ln, altSearch text.data, tzSearch text.data)
  | _, _ => none

/-- Seconds value of a raw DMS group, `float(m.group('sec') or 0.0)`. -/
def secValQ (r : DmsRaw) : ℚ :=
  if r.secFracLen = 0 then (r.secInt : ℚ)
  else (r.secInt : ℚ) + (r.secFracNum : ℚ) / (10 : ℚ) ^ r.secFracLen

/-- Value of a raw `[+-]?\d+(\.\d+)?` group, as Python `float` reads it. -/
def numValQ (r : NumRaw) : ℚ :=
  let m : ℚ :=
    if r.fracLen = 0 then (r.intPart : ℚ)
    else (r.intPart : ℚ) + (r.fracNum : ℚ) / (10 : ℚ) ^ r.fracLen
  if r.neg then -m else m

/-- Embeds `parse_coordinates`: returns `(lat, lon, altitude, timezone)`
or `none` for the `ValueError` branch. -/
def parse_coordinates (text : String) :
    Option (ℚ × ℚ × Option ℚ × Option String) :=
  match parse_raw text with
  | none => none
  | some (lt, ln, alt, tz) =>
    some (dms_to_decimal (lt.deg : ℚ) (lt.minN : ℚ) (secValQ lt)
            (direction_sign (some lt.tail) true),
          dms_to_decimal (ln.deg : ℚ) (ln.minN : ℚ) (secValQ ln)
            (direction_sign (some ln.tail) false),
          alt.map numValQ, tz)

/-- ASCII letter or underscore: class `[A-Za-z_]` of the zone regex. -/
def isZoneC1 (c : Char) : Bool := c.isAlpha || c.toNat = 95

/-- Class `[A-Za-z_+-]` of the zone regex. -/
def isZoneC2 (c : Char) : Bool :=
  c.isAlpha || c.toNat = 95 || c.toNat = 43 || c.toNat = 45

/-- `re.search(r"([A-Za-z_]+\/[A-Za-z_+-]+)", s)`: at each position a
maximal run of the first class must be followed by a slash and a nonempty
run of the second class (the greedy first run cannot backtrack onto a
slash because a slash is not in the first class). -/
def zoneSearch : List Char → Option String
  | [] => none
  | c :: rest =>
    match (c :: rest).span isZoneC1 with
    | ([], _) => zoneSearch rest
    | (r1, s1) =>
      match s1 with
      | slash :: s2 =>
        if slash.toNat = 47 then
          match s2.span isZoneC2 with
          | ([], _) => zoneSearch rest
          | (r2, _) => some (String.mk (r1 ++ slash :: r2))
        else zoneSearch rest
      | [] => zoneSearch rest

/-- First whitespace-delimited token, `s.split()[0]` for a string with a
non-space character. -/
def firstToken (s : String) : String :=
  String.mk ((s.data.dropWhile isSpaceChar).takeWhile (fun c => !isSpaceChar c))

/-- Embeds `normalize_tz` from `main.py`: extract a `Region/City` token if
present, otherwise take the first whitespace token, then apply the single
legacy renaming `Europe/Kiev ↦ Europe/Kyiv`. -/
def normalize_tz (s : String) : String :=
  if s = "" then "auto"
  else
    let st := strTrim s
    let zone :=
      match zoneSearch st.data with
      | some z => z
      | none => firstToken st
    let zone2 := if zone = "Europe/Kiev" then "Europe/Kyiv" else zone
    if zone2 = "" then "auto" else zone2

/-! Embedding of `weather.py`. -/

/-- Embeds `_to_ms`: kilometres per hour to metres per second. -/
def to_ms (kmh : ℚ) : ℚ := kmh / (36 / 10 : ℚ)

/-- Embeds `_interp`: linear interpolation between two reference points,
returning the low value when the reference altitudes coincide. -/
def interp (value_low z_low value_high z_high z : ℚ) : ℚ :=
  if z_high = z_low then value_low
  else value_low + (z - z_low) / (z_high - z_low) * (value_high - value_low)

/-- Reference altitude (m) assigned to the 850 hPa level. -/
def Z_850 : ℚ := 1500

/-- Reference altitude (m) assigned to the 700 hPa level. -/
def Z_700 : ℚ := 3000

/-- Reference altitude (m) assigned to the 600 hPa level. -/
def Z_600 : ℚ := 4200

/-- The fixed local-time windows of `INTERVALS`, as half-open intervals in
minutes since midnight (`dt.time(h, m)` ↦ `60*h + m`). -/
def INTERVALS : List (Nat × Nat) :=
  [(0, 180), (180, 360), (360, 720), (720, 900), (900, 1080),
   (1080, 1200), (1200, 1380)]

/-- The membership test `start_t <= parse_time(ts) < end_t` used by
`slice_intervals`: half-open window containment. -/
def inWindowB (s e t : Nat) : Bool := decide (s ≤ t) && decide (t < e)

/-- The `hourly` block of one upper-air model response: the three
wind-speed series (km/h, `None` for a missing hour).  A model response
without the key contributes an empty list, over which every index lookup
fails exactly as the Python `KeyError` path does. -/
structure ModelHourly where
  ws850 : List (Option ℚ)
  ws700 : List (Option ℚ)
  ws600 : List (Option ℚ)

/-- Hourly value at index `i`: `None` both for a stored null and for an
out-of-range index (the Python `except` branch treats `IndexError` and a
stored `None` identically in `derive_winds_profile`). -/
def levelAt (l : List (Option ℚ)) (i : Nat) : Option ℚ :=
  match l.get? i with
  | some v => v
  | none => none

/-- The three-level readings of one model at hour `i`, available only when
all three are present — the completeness test of `derive_winds_profile`. -/
def rawLevels (m : ModelHourly) (i : Nat) : Option (ℚ × ℚ × ℚ) :=
  match levelAt m.ws850 i, levelAt m.ws700 i, levelAt m.ws600 i with
  | some a, some b, some c => some (a, b, c)
  | _, _, _ => none

/-- Derived wind speeds (m/s) at the three requested altitudes. -/
structure WindSample where
  w1500 : ℚ
  w2500 : ℚ
  w3500 : ℚ
deriving DecidableEq

/-- The per-timestamp body of the `derive_winds_profile` loop: collect the
complete models in order (gfs, then icon), convert to m/s, average each
level over the models present, and interpolate to the requested
altitudes; `none` when neither model is complete. -/
def sampleAt (gfs icon : ModelHourly) (i : Nat) : Option WindSample :=
  let vals := ([rawLevels gfs i, rawLevels icon i].filterMap id).map
    (fun v => (to_ms v.1, to_ms v.2.1, to_ms v.2.2))
  if vals = [] then none
  else
    let n : ℚ := vals.length
    let s850 := (vals.map (fun v => v.1)).sum / n
    let s700 := (vals.map (fun v => v.2.1)).sum / n
    let s600 := (vals.map (fun v => v.2.2)).sum / n
    some { w1500 := s850,
           w2500 := interp s850 Z_850 s700 Z_700 2500,
           w3500 := interp s700 Z_700 s600 Z_600 3500 }

/-- Python `dict` update: replace the value of an existing key in place,
or append a new binding at the end. -/
def dictInsert : List (String × WindSample) → String → WindSample →
    List (String × WindSample)
  | [], k, v => [(k, v)]
  | (k0, v0) :: rest, k, v =>
    if k0 = k then (k0, v) :: rest else (k0, v0) :: dictInsert rest k v

/-- Python `dict.get`: value of the first (unique) binding of a key. -/
def lookupDict : List (String × WindSample) → String → Option WindSample
  | [], _ => none
  | (k, v) :: rest, t => if k = t then some v else lookupDict rest t

/-- The loop of `derive_winds_profile` over `enumerate(times)`, starting
at index `i` with the bindings accumulated so far. -/
def deriveGo (gfs icon : ModelHourly) : Nat → List String →
    List (String × WindSample) → List (String × WindSample)
  | _, [], acc => acc
  | i, t :: ts, acc =>
    match sampleAt gfs icon i with
    | none => deriveGo gfs icon (i + 1) ts acc
    | some w => deriveGo gfs icon (i + 1) ts (dictInsert acc t w)

/-- Embeds `derive_winds_profile`: mapping from time string to derived
wind sample, in insertion order. -/
def derive_winds_profile (times : List String) (gfs icon : ModelHourly) :
    List (String × WindSample) :=
  deriveGo gfs icon 0 times []

/-- Embeds `compute_lcl_m`: the lifted-condensation estimate
`max(0, 125*(T − Td))`, `None` when either input is absent. -/
def compute_lcl_m (temp_c dewpoint_c : Option ℚ) : Option ℚ :=
  match temp_c, dewpoint_c with
  | some t, some d => some (max 0 (125 * (t - d)))
  | _, _ => none

/-- The `hourly` block of the surface response, one series per variable
(only those `slice_intervals` reads).  All series of one fetch share the
timestamp sequence `time`; a missing key yields an empty list. -/
structure Surface where
  time : List String
  temperature_2m : List (Option ℚ)
  dew_point_2m : List (Option ℚ)
  precipitation : List (Option ℚ)
  cloud_cover : List (Option ℚ)
  wind_speed_10m : List (Option ℚ)
  wind_gusts_10m : List (Option ℚ)

/-- Decimal digit of a character list at a position (`'0'` fallback). -/
def digitAt (cs : List Char) (i : Nat) : Nat := (cs.getD i '0').toNat - 48

/-- Embeds the local `parse_time` of `slice_intervals` as minutes since
midnight; the source documents the fixed format `YYYY-MM-DDTHH:MM`, so
the hour sits at characters 11–12 and the minute at 14–15. -/
def parse_time (s : String) : Nat :=
  let cs := s.data
  (10 * digitAt cs 11 + digitAt cs 12) * 60 + (10 * digitAt cs 14 + digitAt cs 15)

/-- Index selection of one window:
`[i for i, ts in enumerate(times) if start_t <= parse_time(ts) < end_t]`. -/
def selectIdxs (times : List String) (s e : Nat) : List Nat :=
  (times.enum.filter (fun p => inWindowB s e (parse_time p.2))).map (fun p => p.1)

/-- Hourly value with Python's `x or 0.0` coercion: an absent (or zero)
value contributes `0`. -/
def hval (l : List (Option ℚ)) (i : Nat) : ℚ := (levelAt l i).getD 0

/-- Window precipitation total: `sum(precip[i] or 0.0 for i in idxs)`. -/
def pSumOf (precip : List (Option ℚ)) (idxs : List Nat) : ℚ :=
  (idxs.map (hval precip)).sum

/-- Window cloud-cover mean: `sum(cc[i] or 0 for i in idxs) / len(idxs)`. -/
def cloudMeanOf (cc : List (Option ℚ)) (idxs : List Nat) : ℚ :=
  (idxs.map (hval cc)).sum / (idxs.length : ℚ)

/-- The description selection of `slice_intervals`, in priority order:
precipitation above the 0.05 threshold, then the two cloud-mean cuts. -/
def describe (p_sum cloud_mean : ℚ) : String :=
  if (5 / 100 : ℚ) < p_sum then "пасмурно, дождь"
  else if 70 ≤ cloud_mean then "пасмурно"
  else if 30 ≤ cloud_mean then "переменная облачность"
  else "малоблачно"

/-- Python `max` of a nonempty list (`0` supplied for the impossible
empty case — `slice_intervals` only evaluates it on nonempty windows). -/
def maxList : List ℚ → ℚ
  | [] => 0
  | x :: xs => xs.foldl max x

/-- Two-digit rendering used by `strftime('%H:%M')` and `%d`/`%m`. -/
def twoDigits (n : Nat) : String :=
  (if n < 10 then "0" else "") ++ toString n

/-- `t.strftime('%H:%M')` for a minutes-since-midnight value. -/
def fmtHM (m : Nat) : String := twoDigits (m / 60) ++ ":" ++ twoDigits (m % 60)

/-- The window label `f"Погода с {start} по {end}"`. -/
def intervalLabel (s e : Nat) : String :=
  "Погода с " ++ fmtHM s ++ " по " ++ fmtHM e

/-- One element of the list built by `slice_intervals`.  The no-data
branch of the source omits the `wind_gust_ms` key; since the formatter
reads it with `dict.get` (default `None`), the omitted key is embedded as
`none`. -/
structure IntervalResult where
  label : String
  desc : String
  wind_ground_ms : Option ℚ
  wind_gust_ms : Option ℚ
  w1500 : Option ℚ
  w2500 : Option ℚ
  w3500 : Option ℚ
  cloud_base_m : Option ℚ
deriving DecidableEq

/-- The summary `slice_intervals` emits for a window with no matching
hourly index. -/
def noDataSummary (s e : Nat) : IntervalResult :=
  { label := intervalLabel s e, desc := "нет данных",
    wind_ground_ms := none, wind_gust_ms := none,
    w1500 := none, w2500 := none, w3500 := none, cloud_base_m := none }

/-- The per-window body of the `slice_intervals` loop. -/
def windowSummary (surface : Surface) (wp : List (String × WindSample))
    (s e : Nat) : IntervalResult :=
  let idxs := selectIdxs surface.time s e
  if idxs = [] then noDataSummary s e
  else
    let p_sum := pSumOf surface.precipitation idxs
    let cloud_mean := cloudMeanOf surface.cloud_cover idxs
    let desc := describe p_sum cloud_mean
    let mean_wind_ms := to_ms ((idxs.map (hval surface.wind_speed_10m)).sum /
      (idxs.length : ℚ))
    let max_gust_ms :=
      if surface.wind_gusts_10m = [] then none
      else some (to_ms (maxList (idxs.map (hval surface.wind_gusts_10m))))
    let lcl_vals := (idxs.map (fun i =>
      compute_lcl_m (levelAt surface.temperature_2m i)
        (levelAt surface.dew_point_2m i))).filterMap id
    let cloud_base_m :=
      if lcl_vals = [] then none
      else some (lcl_vals.sum / (lcl_vals.length : ℚ))
    let mid_i := idxs.getD (idxs.length / 2) 0
    let time_key := surface.time.getD mid_i ""
    let wpS := lookupDict wp time_key
    { label := intervalLabel s e, desc := desc,
      wind_ground_ms := some mean_wind_ms, wind_gust_ms := max_gust_ms,
      w1500 := wpS.map (fun w => w.w1500),
      w2500 := wpS.map (fun w => w.w2500),
      w3500 := wpS.map (fun w => w.w3500),
      cloud_base_m := cloud_base_m }

/-- Embeds `slice_intervals`: one summary per fixed window, in order. -/
def slice_intervals (surface : Surface) (wp : List (String × WindSample)) :
    List IntervalResult :=
  INTERVALS.map (fun w => windowSummary surface wp w.1 w.2)

/-- Python `round` (round-half-to-even) on an exact rational. -/
def roundHalfEven (q : ℚ) : ℤ :=
  let f := ⌊q⌋
  let r := q - (f : ℚ)
  if r < 1 / 2 then f
  else if (1 / 2 : ℚ) < r then f + 1
  else if f % 2 = 0 then f else f + 1

/-- Embeds the local `fmt_speed` of `format_report`. -/
def fmt_speed (v : Option ℚ) : String :=
  match v with
  | none => "—"
  | some x => toString (roundHalfEven x) ++ " м/с"

/-- Embeds the local `fmt_height` of `format_report`. -/
def fmt_height (v : Option ℚ) : String :=
  match v with
  | none => "—"
  | some x => "~" ++ toString (10 * roundHalfEven (x / 10)) ++ " м"

/-- The gust suffix: empty for an absent or zero (falsy) gust value. -/
def gustPart (g : Option ℚ) : String :=
  match g with
  | none => ""
  | some x =>
    if x = 0 then ""
    else " (порывы до ~" ++ toString (roundHalfEven x) ++ " м/с)"

/-- The lines `format_report` appends for one interval block. -/
def formatItem (item : IntervalResult) : List String :=
  [item.label ++ " — " ++ item.desc,
   "Ветер на земле: " ++ fmt_speed item.wind_ground_ms ++
     gustPart item.wind_gust_ms,
   "Ветер на 1500 метров: " ++ fmt_speed item.w1500,
   "Ветер на 2500 метров: " ++ fmt_speed item.w2500,
   "Ветер на 3500 метров: " ++ fmt_speed item.w3500,
   "Нижняя граница облаков: " ++ fmt_height item.cloud_base_m,
   ""]

/-- Embeds `format_report` (the date pre-rendered into day/month/year). -/
def format_report (day month year : Nat) (coords_text place_text : String)
    (intervals : List IntervalResult) : String :=
  strTrim (String.intercalate "\n"
    (["ПОГОДНЫЕ УСЛОВИЯ НА " ++ twoDigits day ++ "." ++ twoDigits month ++
        "." ++ toString year ++ " (\"" ++ coords_text ++ "\", \"" ++
        place_text ++ "\")", ""] ++
      (intervals.map formatItem).flatten))

/-! Concrete inputs used by the witness instantiations. -/

/-- The ASCII minute mark as a one-character string. -/
def aposStr : String := String.mk [Char.ofNat 39]

/-- The end-to-end scenario input of the specification. -/
def c9input : String :=
  "Широта: 47°41" ++ aposStr ++ "с. ш. / Долгота: 36°49" ++ aposStr ++
  "в. д. / Высота: 119 m\nЧасовой пояс: Europe/Kiev (UTC+3)"

/-- A label-free input with two DMS fragments (10 and 20). -/
def c1input : String := "10, 20"

/-- A surface response with a single hour at 06:00 and plain values. -/
def exSurface : Surface :=
  { time := ["2024-05-01T06:00"], temperature_2m := [some 20],
    dew_point_2m := [some 12], precipitation := [some 0],
    cloud_cover := [some 50], wind_speed_10m := [some 36],
    wind_gusts_10m := [some 72] }

/-- A surface response with a single hour at 00:30 whose values are all
absent. -/
def exSurfaceNone : Surface :=
  { time := ["2024-05-01T00:30"], temperature_2m := [none],
    dew_point_2m := [none], precipitation := [none],
    cloud_cover := [none], wind_speed_10m := [none],
    wind_gusts_10m := [none] }

/-- A surface response with no hourly rows at all. -/
def exSurfaceEmpty : Surface := ⟨[], [], [], [], [], [], []⟩

/-- A model with complete three-level data at hour 0. -/
def exGfs : ModelHourly := ⟨[some 36], [some 72], [some 108]⟩

/-- A model whose response carried no wind series. -/
def exNoModel : ModelHourly := ⟨[], [], []⟩

/-! Claim theorems. -/

/-- C6: linear interpolation evaluated at the lower reference altitude
returns the lower reference value exactly, and at the upper reference
altitude returns the upper reference value exactly, whenever the two
reference altitudes differ. -/
theorem interp_at_reference (v_low z_low v_high z_high : ℚ)
    (h : z_low ≠ z_high) :
    interp v_low z_low v_high z_high z_low = v_low ∧
    interp v_low z_low v_high z_high z_high = v_high := by
  have h2 : z_high - z_low ≠ 0 := sub_ne_zero.mpr (Ne.symm h)
  constructor
  · simp [interp, Ne.symm h]
  · rw [interp, if_neg (Ne.symm h), div_self h2]
    ring

/-- Witness for C6 at the concrete reference pair (1500 m, 3000 m). -/
theorem interp_at_reference_witness :
    interp 5 1500 7 3000 1500 = 5 ∧ interp 5 1500 7 3000 3000 = 7 :=
  interp_at_reference 5 1500 7 3000 (by norm_num)

/-- C2 counterexample: minute 1410 (23:30) is a within-day timestamp that
belongs to none of the seven windows, so the windows do not partition the
whole local day. -/
theorem intervals_no_window_at_2330 :
    1410 < 1440 ∧ INTERVALS.countP (fun w => inWindowB w.1 w.2 1410) = 0 := by
  decide

/-- C2 amended: the seven half-open windows are pairwise disjoint and
cover exactly [00:00, 23:00) of the local day — a within-day minute
belongs to exactly one window when it is before 23:00 (minute 1380) and
to no window otherwise. -/
theorem intervals_partition_before_2300 :
    ∀ t : Nat, t < 1440 →
      INTERVALS.countP (fun w => inWindowB w.1 w.2 t) =
        if t < 1380 then 1 else 0 := by
  intro t ht
  simp only [INTERVALS, inWindowB, List.countP_cons, List.countP_nil,
    Bool.and_eq_true, decide_eq_true_eq]
  split_ifs <;> omega

/-- Witness for C2 (amended) at minute 90. -/
theorem intervals_partition_before_2300_witness :
    90 < 1440 ∧
    INTERVALS.countP (fun w => inWindowB w.1 w.2 90) =
      if 90 < 1380 then 1 else 0 :=
  ⟨by decide, intervals_partition_before_2300 90 (by decide)⟩

/-- C3: the window description is selected in priority order from the
precipitation sum and the cloud-cover mean — rain above the 0.05
precipitation threshold, else overcast at mean ≥ 70, else variable at
mean ≥ 30, else clear-ish; a mean of exactly 70 is overcast, exactly 30
(without precipitation) is variable, and 29.9 is clear-ish; and the
summary of every window with a selected hour carries exactly this
description of its precipitation sum and cloud mean. -/
theorem describe_priority :
    (∀ p c : ℚ,
      ((5 / 100 : ℚ) < p → describe p c = "пасмурно, дождь") ∧
      (p ≤ 5 / 100 → 70 ≤ c → describe p c = "пасмурно") ∧
      (p ≤ 5 / 100 → 30 ≤ c → c < 70 → describe p c = "переменная облачность") ∧
      (p ≤ 5 / 100 → c < 30 → describe p c = "малоблачно")) ∧
    (∀ (surface : Surface) (wp : List (String × WindSample)) (s e : Nat),
      selectIdxs surface.time s e ≠ [] →
      (windowSummary surface wp s e).desc =
        describe (pSumOf surface.precipitation (selectIdxs surface.time s e))
          (cloudMeanOf surface.cloud_cover (selectIdxs surface.time s e))) ∧
    describe 0 70 = "пасмурно" ∧
    describe 0 30 = "переменная облачность" ∧
    describe 0 (299 / 10) = "малоблачно" := by
  refine ⟨fun p c => ⟨?_, ?_, ?_, ?_⟩, ?_, ?_, ?_, ?_⟩
  · intro h; rw [describe, if_pos h]
  · intro h1 h2
    rw [describe, if_neg (not_lt.mpr h1), if_pos h2]
  · intro h1 h2 h3
    rw [describe, if_neg (not_lt.mpr h1), if_neg (not_le.mpr h3), if_pos h2]
  · intro h1 h2
    rw [describe, if_neg (not_lt.mpr h1),
      if_neg (not_le.mpr (lt_trans h2 (by norm_num))), if_neg (not_le.mpr h2)]
  · intro surface wp s e hne
    simp [windowSummary, hne]
  · norm_num [describe]
  · norm_num [describe]
  · norm_num [describe]

/-- Witness for C3: each description branch at a concrete input, and the
window description of the example surface. -/
theorem describe_priority_witness :
    describe 1 0 = "пасмурно, дождь" ∧ describe 0 80 = "пасмурно" ∧
    describe 0 50 = "переменная облачность" ∧ describe 0 10 = "малоблачно" ∧
    (windowSummary exSurface [] 360 720).desc =
      describe (pSumOf exSurface.precipitation (selectIdxs exSurface.time 360 720))
        (cloudMeanOf exSurface.cloud_cover (selectIdxs exSurface.time 360 720)) :=
  ⟨(describe_priority.1 1 0).1 (by norm_num),
   (describe_priority.1 0 80).2.1 (by norm_num) (by norm_num),
   (describe_priority.1 0 50).2.2.1 (by norm_num) (by norm_num) (by norm_num),
   (describe_priority.1 0 10).2.2.2 (by norm_num) (by norm_num),
   describe_priority.2.1 exSurface [] 360 720 (by decide)⟩

/-- C9: the specification's end-to-end input parses to latitude
47 + 41/60, longitude 36 + 49/60, altitude 119 and the timezone label
"Europe/Kiev (UTC+3)" (which contains "Europe/Kiev"), and the timezone
normalizer maps that label to "Europe/Kyiv". -/
theorem parse_coordinates_scenario :
    parse_coordinates c9input =
      some (47 + 41 / 60, 36 + 49 / 60, some 119, some "Europe/Kiev (UTC+3)") ∧
    containsSub "Europe/Kiev (UTC+3)".data "Europe/Kiev".data = true ∧
    normalize_tz "Europe/Kiev (UTC+3)" = "Europe/Kyiv" := by
  refine ⟨?_, by decide, by decide⟩
  have h : parse_raw c9input =
      some (⟨47, 41, 0, 0, 0, "с. ш."⟩, ⟨36, 49, 0, 0, 0, "в. д."⟩,
        some ⟨false, 119, 0, 0⟩, some "Europe/Kiev (UTC+3)") := by decide
  have hl : direction_sign (some "с. ш.") true = 1 := by decide
  have hn : direction_sign (some "в. д.") false = 1 := by decide
  rw [parse_coordinates, h]
  norm_num [hl, hn, dms_to_decimal, secValQ, numValQ]

/-- C1 evidence: on the label-free input "10, 20" the fallback is taken
(no latitude or longitude keyword, two DMS fragments found, the second
with degree value 20), yet `parse_coordinates` extracts the first
fragment for both axes and returns latitude 10 and longitude 10 — not
the second fragment 20 as the longitude. -/
theorem parse_coordinates_fallback_first_twice :
    labelScan ((splitChars (fun c => c == '\n' || c == '/' || c == '|')
      c1input.data).map (fun l => String.mk (charTrim l))) = (none, none) ∧
    (dmsFindAll c1input.data).length = 2 ∧
    ((dmsFindAll c1input.data).get? 1).map (fun m => m.deg) = some 20 ∧
    parse_coordinates c1input = some (10, 10, none, none) := by
  refine ⟨by decide, by decide, by decide, ?_⟩
  have h : parse_raw c1input =
      some (⟨10, 0, 0, 0, 0, ", 20"⟩, ⟨10, 0, 0, 0, 0, ", 20"⟩, none, none) := by
    decide
  have hl : direction_sign (some ", 20") true = 1 := by decide
  have hn : direction_sign (some ", 20") false = 1 := by decide
  rw [parse_coordinates, h]
  norm_num [hl, hn, dms_to_decimal, secValQ]

/-- C7: for every window of the schedule with at least one selected hour,
the ground-wind field is the mean of the 10 m wind speeds over the
selected hours converted to m/s, and the gust field is the converted
maximum of the 10 m gusts over the selected hours, absent exactly when
the gust series carries no data. -/
theorem window_ground_wind_gust (surface : Surface)
    (wp : List (String × WindSample)) (s e : Nat)
    (_hw : (s, e) ∈ INTERVALS) (hne : selectIdxs surface.time s e ≠ []) :
    (windowSummary surface wp s e).wind_ground_ms =
      some (to_ms (((selectIdxs surface.time s e).map
        (hval surface.wind_speed_10m)).sum /
        ((selectIdxs surface.time s e).length : ℚ))) ∧
    ((windowSummary surface wp s e).wind_gust_ms = none ↔
      surface.wind_gusts_10m = []) ∧
    (surface.wind_gusts_10m ≠ [] →
      (windowSummary surface wp s e).wind_gust_ms =
        some (to_ms (maxList ((selectIdxs surface.time s e).map
          (hval surface.wind_gusts_10m))))) := by
  refine ⟨?_, ?_, ?_⟩
  · simp [windowSummary, hne]
  · by_cases hg : surface.wind_gusts_10m = [] <;> simp [windowSummary, hne, hg]
  · intro hg; simp [windowSummary, hne, hg]

/-- Witness for C7 on the one-hour example surface. -/
theorem window_ground_wind_gust_witness :
    (windowSummary exSurface [] 360 720).wind_ground_ms =
      some (to_ms (((selectIdxs exSurface.time 360 720).map
        (hval exSurface.wind_speed_10m)).sum /
        ((selectIdxs exSurface.time 360 720).length : ℚ))) ∧
    (windowSummary exSurface [] 360 720).wind_gust_ms =
      some (to_ms (maxList ((selectIdxs exSurface.time 360 720).map
        (hval exSurface.wind_gusts_10m)))) := by
  have h := window_ground_wind_gust exSurface [] 360 720 (by decide) (by decide)
  exact ⟨h.1, h.2.2 (by decide)⟩

/-- C8: a window in which no hourly index falls yields the no-data
summary — description "нет данных", every numeric field absent — and the
formatter renders a dash placeholder on every numeric line of that
window's block. -/
theorem window_no_data (surface : Surface) (wp : List (String × WindSample))
    (k s e : Nat) (hk : INTERVALS.get? k = some (s, e))
    (hempty : selectIdxs surface.time s e = []) :
    (slice_intervals surface wp).get? k = some (noDataSummary s e) ∧
    (noDataSummary s e).desc = "нет данных" ∧
    (noDataSummary s e).wind_ground_ms = none ∧
    (noDataSummary s e).wind_gust_ms = none ∧
    (noDataSummary s e).w1500 = none ∧ (noDataSummary s e).w2500 = none ∧
    (noDataSummary s e).w3500 = none ∧ (noDataSummary s e).cloud_base_m = none ∧
    formatItem (noDataSummary s e) =
      [intervalLabel s e ++ " — " ++ "нет данных",
       "Ветер на земле: —", "Ветер на 1500 метров: —",
       "Ветер на 2500 метров: —", "Ветер на 3500 метров: —",
       "Нижняя граница облаков: —", ""] := by
  refine ⟨?_, rfl, rfl, rfl, rfl, rfl, rfl, rfl, rfl⟩
  have h1 : (slice_intervals surface wp).get? k =
      some (windowSummary surface wp s e) := by
    simp only [slice_intervals, List.get?_map, hk, Option.map_some']
  have h2 : windowSummary surface wp s e = noDataSummary s e := by
    rw [windowSummary]
    simp [hempty]
  rw [h1, h2]

/-- Witness for C8: an empty surface response leaves the first window
(00:00–03:00) without indices. -/
theorem window_no_data_witness :
    (slice_intervals exSurfaceEmpty []).get? 0 = some (noDataSummary 0 180) ∧
    formatItem (noDataSummary 0 180) =
      [intervalLabel 0 180 ++ " — " ++ "нет данных",
       "Ветер на земле: —", "Ветер на 1500 метров: —",
       "Ветер на 2500 метров: —", "Ветер на 3500 метров: —",
       "Нижняя граница облаков: —", ""] := by
  have h := window_no_data exSurfaceEmpty [] 0 0 180 (by decide) (by decide)
  exact ⟨h.1, h.2.2.2.2.2.2.2.2⟩

/-- Auxiliary: a left fold of `max` over an all-zero list from 0 is 0. -/
theorem foldl_max_zero (l : List ℚ) (h : ∀ x ∈ l, x = 0) :
    l.foldl max 0 = 0 := by
  induction l with
  | nil => rfl
  | cons a t ih =>
    have ha : a = 0 := h a (by simp)
    have ht : ∀ x ∈ t, x = (0 : ℚ) := fun x hx => h x (by simp [hx])
    simp [List.foldl_cons, ha, ih ht]

/-- Auxiliary: the Python-style maximum of a list of zeros is 0. -/
theorem maxList_zero (l : List ℚ) (h : ∀ x ∈ l, x = 0) : maxList l = 0 := by
  cases l with
  | nil => rfl
  | cons a t =>
    have ha : a = 0 := h a (by simp)
    have ht : ∀ x ∈ t, x = (0 : ℚ) := fun x hx => h x (by simp [hx])
    simp only [maxList, ha]
    exact foldl_max_zero t ht

/-- C10: inside a non-empty window, hourly values that are absent are
coerced to 0 in the aggregates — the sums and means divide by the number
of selected hours and the gust maximum treats absent hours as 0 — so
with every underlying hourly value missing the ground wind is 0 m/s (not
absent), the description is the clear-ish one of a 0 precipitation sum
and 0 cloud mean, and (when the gust series is non-empty) the gust is
0 m/s. -/
theorem window_null_coercion (surface : Surface)
    (wp : List (String × WindSample)) (s e : Nat)
    (hne : selectIdxs surface.time s e ≠ [])
    (hp : ∀ i ∈ selectIdxs surface.time s e,
      levelAt surface.precipitation i = none)
    (hc : ∀ i ∈ selectIdxs surface.time s e,
      levelAt surface.cloud_cover i = none)
    (hwd : ∀ i ∈ selectIdxs surface.time s e,
      levelAt surface.wind_speed_10m i = none) :
    (windowSummary surface wp s e).wind_ground_ms = some 0 ∧
    (windowSummary surface wp s e).desc = "малоблачно" ∧
    (surface.wind_gusts_10m ≠ [] →
      (∀ i ∈ selectIdxs surface.time s e,
        levelAt surface.wind_gusts_10m i = none) →
      (windowSummary surface wp s e).wind_gust_ms = some 0) := by
  have hsum : ∀ (l : List (Option ℚ)),
      (∀ i ∈ selectIdxs surface.time s e, levelAt l i = none) →
      ((selectIdxs surface.time s e).map (hval l)).sum = 0 := by
    intro l hl
    apply List.sum_eq_zero
    intro x hx
    obtain ⟨i, hi, rfl⟩ := List.mem_map.mp hx
    simp [hval, hl i hi]
  refine ⟨?_, ?_, ?_⟩
  · simp [windowSummary, hne, hsum surface.wind_speed_10m hwd, to_ms]
  · have h2 := hsum surface.precipitation hp
    have h3 := hsum surface.cloud_cover hc
    norm_num [windowSummary, hne, describe, pSumOf, cloudMeanOf, h2, h3]
  · intro hg hgn
    have hmax : maxList ((selectIdxs surface.time s e).map
        (hval surface.wind_gusts_10m)) = 0 := by
      apply maxList_zero
      intro x hx
      obtain ⟨i, hi, rfl⟩ := List.mem_map.mp hx
      simp [hval, hgn i hi]
    simp [windowSummary, hne, hg, hmax, to_ms]

/-- Witness for C10 on the all-absent one-hour surface. -/
theorem window_null_coercion_witness :
    (windowSummary exSurfaceNone [] 0 180).wind_ground_ms = some 0 ∧
    (windowSummary exSurfaceNone [] 0 180).desc = "малоблачно" ∧
    (windowSummary exSurfaceNone [] 0 180).wind_gust_ms = some 0 := by
  have h := window_null_coercion exSurfaceNone [] 0 180 (by decide) (by decide)
    (by decide) (by decide)
  exact ⟨h.1, h.2.1, h.2.2 (by decide) (by decide)⟩

/-! Dictionary and derivation lemmas for C4 and C5. -/

/-- Looking up the key just inserted returns the inserted value. -/
theorem lookupDict_dictInsert_self (d : List (String × WindSample))
    (k : String) (v : WindSample) :
    lookupDict (dictInsert d k v) k = some v := by
  induction d with
  | nil => simp [dictInsert, lookupDict]
  | cons p rest ih =>
    obtain ⟨k0, v0⟩ := p
    by_cases h : k0 = k
    · simp [dictInsert, h, lookupDict]
    · simp [dictInsert, h, lookupDict, ih]

/-- Inserting one key leaves the lookup of a different key unchanged. -/
theorem lookupDict_dictInsert_ne (d : List (String × WindSample))
    (k t : String) (v : WindSample) (h : k ≠ t) :
    lookupDict (dictInsert d k v) t = lookupDict d t := by
  induction d with
  | nil => simp [dictInsert, lookupDict, h]
  | cons p rest ih =>
    obtain ⟨k0, v0⟩ := p
    by_cases h0 : k0 = k
    · subst h0
      simp [dictInsert, lookupDict, h]
    · simp only [dictInsert, if_neg h0, lookupDict]
      by_cases h1 : k0 = t
      · simp [h1]
      · simp [h1, ih]

/-- Every binding after an insertion was already present or is the
inserted one. -/
theorem mem_dictInsert (d : List (String × WindSample)) (k : String)
    (v : WindSample) (p : String × WindSample)
    (h : p ∈ dictInsert d k v) : p ∈ d ∨ p = (k, v) := by
  induction d with
  | nil =>
    rw [dictInsert] at h
    exact Or.inr (List.mem_singleton.mp h)
  | cons q rest ih =>
    obtain ⟨k0, v0⟩ := q
    rw [dictInsert] at h
    by_cases h0 : k0 = k
    · rw [if_pos h0] at h
      rcases List.mem_cons.mp h with h2 | h2
      · subst h0
        exact Or.inr h2
      · exact Or.inl (List.mem_cons_of_mem _ h2)
    · rw [if_neg h0] at h
      rcases List.mem_cons.mp h with h2 | h2
      · exact Or.inl (by simp [h2])
      · rcases ih h2 with h3 | h3
        · exact Or.inl (List.mem_cons_of_mem _ h3)
        · exact Or.inr h3

/-- The loop of `derive_winds_profile` leaves the lookup of a timestamp
unchanged when every remaining occurrence of that timestamp has no
complete model data. -/
theorem deriveGo_lookup_of_none (gfs icon : ModelHourly) :
    ∀ (ts : List String) (i : Nat) (acc : List (String × WindSample))
      (t : String),
      (∀ j, ts.get? j = some t → sampleAt gfs icon (i + j) = none) →
      lookupDict (deriveGo gfs icon i ts acc) t = lookupDict acc t := by
  intro ts
  induction ts with
  | nil => intro i acc t _; rfl
  | cons t0 ts ih =>
    intro i acc t h
    have hshift : ∀ j, ts.get? j = some t →
        sampleAt gfs icon (i + 1 + j) = none := by
      intro j hj
      have := h (j + 1) (by simpa using hj)
      have e : i + (j + 1) = i + 1 + j := by omega
      rwa [e] at this
    cases hs : sampleAt gfs icon i with
    | none =>
      rw [deriveGo, hs]
      exact ih (i + 1) acc t hshift
    | some w =>
      have ht0 : t0 ≠ t := by
        intro he
        have := h 0 (by simp [he])
        simp only [Nat.add_zero] at this
        rw [this] at hs
        exact Option.noConfusion hs
      rw [deriveGo, hs]
      rw [ih (i + 1) (dictInsert acc t0 w) t hshift]
      exact lookupDict_dictInsert_ne acc t0 t w ht0

/-- Every binding produced by the loop of `derive_winds_profile` comes
from the accumulator or from a position with complete model data. -/
theorem deriveGo_mem (gfs icon : ModelHourly) :
    ∀ (ts : List String) (i : Nat) (acc : List (String × WindSample))
      (p : String × WindSample), p ∈ deriveGo gfs icon i ts acc →
      p ∈ acc ∨
        ∃ j, ts.get? j = some p.1 ∧ sampleAt gfs icon (i + j) ≠ none := by
  intro ts
  induction ts with
  | nil => intro i acc p h; exact Or.inl h
  | cons t0 ts ih =>
    intro i acc p h
    cases hs : sampleAt gfs icon i with
    | none =>
      rw [deriveGo, hs] at h
      rcases ih (i + 1) acc p h with h2 | ⟨j, hj, hne⟩
      · exact Or.inl h2
      · refine Or.inr ⟨j + 1, by simpa using hj, ?_⟩
        have e : i + (j + 1) = i + 1 + j := by omega
        rwa [e]
    | some w =>
      rw [deriveGo, hs] at h
      rcases ih (i + 1) (dictInsert acc t0 w) p h with h2 | ⟨j, hj, hne⟩
      · rcases mem_dictInsert acc t0 w p h2 with h3 | h3
        · exact Or.inl h3
        · refine Or.inr ⟨0, ?_, ?_⟩
          · simp [h3]
          · simp only [Nat.add_zero, hs]
            exact fun hc => Option.noConfusion hc
      · refine Or.inr ⟨j + 1, by simpa using hj, ?_⟩
        have e : i + (j + 1) = i + 1 + j := by omega
        rwa [e]

/-- After the loop of `derive_winds_profile`, the lookup of a timestamp
that occurs exactly once, at a position with complete model data, is the
sample of that position. -/
theorem deriveGo_lookup_found (gfs icon : ModelHourly) :
    ∀ (ts : List String) (j i : Nat) (acc : List (String × WindSample))
      (t : String) (w : WindSample),
      ts.get? j = some t → sampleAt gfs icon (i + j) = some w →
      (∀ j2, j2 ≠ j → ts.get? j2 ≠ some t) →
      lookupDict (deriveGo gfs icon i ts acc) t = some w := by
  intro ts
  induction ts with
  | nil => intro j i acc t w hj; simp at hj
  | cons t0 ts ih =>
    intro j i acc t w hj hw huniq
    cases j with
    | zero =>
      have ht0 : t0 = t := by simpa using hj
      subst ht0
      simp only [Nat.add_zero] at hw
      rw [deriveGo, hw]
      have hnone : ∀ j2, ts.get? j2 = some t0 →
          sampleAt gfs icon (i + 1 + j2) = none := by
        intro j2 hj2
        exact absurd (by simpa using hj2) (huniq (j2 + 1) (by omega))
      rw [deriveGo_lookup_of_none gfs icon ts (i + 1) (dictInsert acc t0 w)
        t0 hnone]
      exact lookupDict_dictInsert_self acc t0 w
    | succ j1 =>
      have ht0 : t0 ≠ t := by
        intro he
        exact huniq 0 (by omega) (by simp [he])
      have hj1 : ts.get? j1 = some t := by simpa using hj
      have hw1 : sampleAt gfs icon (i + 1 + j1) = some w := by
        have e : i + (j1 + 1) = i + 1 + j1 := by omega
        rwa [e] at hw
      have huniq1 : ∀ j2, j2 ≠ j1 → ts.get? j2 ≠ some t := by
        intro j2 hne hj2
        exact huniq (j2 + 1) (by omega) (by simpa using hj2)
      cases hs : sampleAt gfs icon i with
      | none =>
        rw [deriveGo, hs]
        exact ih j1 (i + 1) acc t w hj1 hw1 huniq1
      | some w0 =>
        rw [deriveGo, hs]
        exact ih j1 (i + 1) (dictInsert acc t0 w0) t w hj1 hw1 huniq1

/-- The per-hour sample is absent exactly when neither model has complete
three-level data. -/
theorem sampleAt_eq_none_iff (gfs icon : ModelHourly) (i : Nat) :
    sampleAt gfs icon i = none ↔
      rawLevels gfs i = none ∧ rawLevels icon i = none := by
  cases h1 : rawLevels gfs i <;> cases h2 : rawLevels icon i <;>
    simp [sampleAt, h1, h2]

/-- A list with distinct elements cannot hold the same element at two
positions. -/
theorem nodup_get?_unique {l : List String} (hnd : l.Nodup) {i j : Nat}
    {t : String} (hi : l.get? i = some t) (hj : l.get? j = some t) :
    i = j := by
  induction l generalizing i j with
  | nil => simp at hi
  | cons a l ih =>
    cases i with
    | zero =>
      cases j with
      | zero => rfl
      | succ j1 =>
        have ha : a = t := by simpa using hi
        have hmem : t ∈ l := List.get?_mem (by simpa using hj)
        exact absurd (ha ▸ hmem) (List.nodup_cons.mp hnd).1
    | succ i1 =>
      cases j with
      | zero =>
        have ha : a = t := by simpa using hj
        have hmem : t ∈ l := List.get?_mem (by simpa using hi)
        exact absurd (ha ▸ hmem) (List.nodup_cons.mp hnd).1
      | succ j1 =>
        have := ih (List.nodup_cons.mp hnd).2 (by simpa using hi)
          (by simpa using hj)
        omega

/-- C4: at a timestamp where exactly one model has complete three-level
data, the derived sample is that model's readings converted km/h → m/s
with no averaging artifact — the 1500 m value is the converted 850 hPa
reading directly, and the 2500 m and 3500 m values interpolate the
converted single-model readings between the fixed reference altitudes. -/
theorem derive_winds_profile_single_model (times : List String)
    (gfs icon : ModelHourly) (i : Nat) (t : String) (a b c : ℚ)
    (hnd : times.Nodup) (ht : times.get? i = some t)
    (hone : (rawLevels gfs i = some (a, b, c) ∧ rawLevels icon i = none) ∨
            (rawLevels icon i = some (a, b, c) ∧ rawLevels gfs i = none)) :
    lookupDict (derive_winds_profile times gfs icon) t =
      some { w1500 := to_ms a,
             w2500 := interp (to_ms a) Z_850 (to_ms b) Z_700 2500,
             w3500 := interp (to_ms b) Z_700 (to_ms c) Z_600 3500 } := by
  have hs : sampleAt gfs icon i =
      some { w1500 := to_ms a,
             w2500 := interp (to_ms a) Z_850 (to_ms b) Z_700 2500,
             w3500 := interp (to_ms b) Z_700 (to_ms c) Z_600 3500 } := by
    rcases hone with ⟨h1, h2⟩ | ⟨h1, h2⟩ <;> simp [sampleAt, h1, h2]
  have huniq : ∀ j2, j2 ≠ i → times.get? j2 ≠ some t := by
    intro j2 hne hj2
    exact hne (nodup_get?_unique hnd hj2 ht)
  rw [derive_winds_profile]
  exact deriveGo_lookup_found gfs icon times i 0 [] t _ ht
    (by simpa using hs) huniq

/-- Witness for C4: one model with complete data at the single hour, the
other with an empty response. -/
theorem derive_winds_profile_single_model_witness :
    lookupDict (derive_winds_profile ["2024-05-01T06:00"] exGfs exNoModel)
        "2024-05-01T06:00" =
      some { w1500 := to_ms 36,
             w2500 := interp (to_ms 36) Z_850 (to_ms 72) Z_700 2500,
             w3500 := interp (to_ms 72) Z_700 (to_ms 108) Z_600 3500 } :=
  derive_winds_profile_single_model ["2024-05-01T06:00"] exGfs exNoModel 0
    "2024-05-01T06:00" 36 72 108 (by simp)
    (by simp [exGfs, rawLevels, levelAt])
    (Or.inl ⟨by simp [exGfs, rawLevels, levelAt],
             by simp [exNoModel, rawLevels, levelAt]⟩)

/-- C5: a timestamp at which neither model has complete three-level data
is absent from the derived mapping (no interpolation from neighbouring
hours), and every binding of the mapping belongs to a timestamp at which
at least one model had complete data. -/
theorem derive_winds_profile_omits_incomplete (times : List String)
    (gfs icon : ModelHourly) (t : String) :
    ((∀ j, j < times.length → times.get? j = some t →
        rawLevels gfs j = none ∧ rawLevels icon j = none) →
      lookupDict (derive_winds_profile times gfs icon) t = none) ∧
    (∀ w, (t, w) ∈ derive_winds_profile times gfs icon →
      ∃ j, times.get? j = some t ∧
        (rawLevels gfs j ≠ none ∨ rawLevels icon j ≠ none)) := by
  constructor
  · intro h
    rw [derive_winds_profile]
    rw [deriveGo_lookup_of_none gfs icon times 0 [] t ?_]
    · rfl
    · intro j hj
      have hlen : j < times.length := by
        rcases List.get?_eq_some.mp hj with ⟨hl, _⟩
        exact hl
      have := h j hlen hj
      rw [Nat.zero_add, sampleAt_eq_none_iff]
      exact this
  · intro w hmem
    rcases deriveGo_mem gfs icon times 0 [] (t, w) hmem with h2 | ⟨j, hj, hne⟩
    · simp at h2
    · refine ⟨j, hj, ?_⟩
      rw [Nat.zero_add] at hne
      rcases not_and_or.mp (fun hc => hne ((sampleAt_eq_none_iff gfs icon j).mpr hc))
        with h3 | h3
      · exact Or.inl h3
      · exact Or.inr h3

/-- Witness for C5: two empty model responses leave the single timestamp
out of the mapping. -/
theorem derive_winds_profile_omits_incomplete_witness :
    lookupDict (derive_winds_profile ["2024-05-01T06:00"] exNoModel exNoModel)
      "2024-05-01T06:00" = none :=
  (derive_winds_profile_omits_incomplete ["2024-05-01T06:00"] exNoModel
      exNoModel "2024-05-01T06:00").1
    (by
      intro j hj _
      exact ⟨rfl, rfl⟩)

end WeatherBot
